import Mathlib

/-
Shallow embedding of the linkmeup proxy supervisor.

Embedded source:
- pkg/proxy/proxy.go      : the Proxy supervisor (New, selectNode, Start,
                            Stop, Ping, the PingConstantly loop body).
- pkg/pinger/pinger.go    : the standalone Pinger.Ping classification.
- pkg/pacserver           : renderPacFile.

External effects are modelled as explicit oracle inputs:
- randomness: each call to rand.IntN(n) consumes an arbitrary natural
  number, taken modulo n (so every value in [0, n) is realisable);
- the tsh processes (node enumeration, tunnel launch, kill) are oracles:
  an Except result for getNodes, an Option pid for cmd.Start, a Bool for
  Process.Kill;
- the HTTP world is an HttpEnv oracle: whether request construction
  succeeded, whether a response was received (and its status code), and
  whether client.Do reported an error. Wall-clock durations carry no
  control flow and are omitted.
-/

namespace Linkmeup

/-- Result of one health probe, from the pingResult struct in
pkg/proxy/proxy.go. The Go struct also stores an error value and a
wall-clock duration; the error is modelled by the flag hasErr (whether an
error value was recorded) and the duration is omitted. -/
structure pingResult where
  success : Bool := false
  statusCode : Int := 0
  hasErr : Bool := false
  deriving Repr, DecidableEq

/-- The Proxy struct of pkg/proxy/proxy.go. The process handle is
modelled as an optional pid; the logger, the SOCKS5 http client and the
mutex carry no data relevant to the embedded control flow. -/
structure Proxy where
  Name : String
  Port : Nat
  Domain : String
  CheckEndpoint : String
  nodes : List String := []
  nodeActive : String := ""
  process : Option Nat := none
  healthy : Bool := false
  lastPingResult : Option pingResult := none
  deriving Repr, DecidableEq

/-- One in-place swap step of the shuffle loop in selectNode
(proxy.go lines 124-128). The Go parallel assignment reads both old
values before writing, which is why both reads are on the original list.
The shuffle only produces in-range indices; for out-of-range indices
List.set is the identity and List.getD falls back to the default. -/
def swapAt (l : List String) (i j : Nat) : List String :=
  (l.set i (l.getD j "")).set j (l.getD i "")

/-- The shuffle loop of selectNode: for each i in 0..len-1 in order, swap
index i with a random index j, where j is the result of rand.IntN(i+1).
The oracle value rands i is reduced modulo i+1, exactly the range
rand.IntN guarantees. -/
def shuffleNodes (rands : Nat → Nat) (l : List String) : List String :=
  (List.range l.length).foldl (fun acc i => swapAt acc i (rands i % (i + 1))) l

/-- selectNode (proxy.go lines 119-140): on an empty node list return "".
Otherwise shuffle the nodes in place, then walk them and activate the
first one that differs from the currently active node; if none differs,
fall back to the first shuffled node. Returns the chosen node together
with the updated Proxy. -/
def Proxy.selectNode (rands : Nat → Nat) (p : Proxy) : String × Proxy :=
  if p.nodes.length = 0 then ("", p)
  else
    let shuffled := shuffleNodes rands p.nodes
    match shuffled.find? (fun n => p.nodeActive != n) with
    | some n => (n, { p with nodes := shuffled, nodeActive := n })
    | none =>
      let n0 := shuffled.getD 0 ""
      (n0, { p with nodes := shuffled, nodeActive := n0 })

/-- Start (proxy.go lines 143-164): with no nodes, fail before any
process is spawned. Otherwise pick a uniformly random node (r is the
oracle value of rand.IntN(len(nodes))), launch the tsh ssh tunnel
(launch is none when cmd.Start fails, some pid on success), and on
success record the process handle and make the picked node active. On
any failure the Proxy is unchanged. -/
def Proxy.Start (r : Nat) (launch : Option Nat) (p : Proxy) : Option String × Proxy :=
  if p.nodes.length = 0 then
    (some ("failed to start proxy for " ++ p.Name ++ ": no nodes available"), p)
  else
    let node := p.nodes.getD (r % p.nodes.length) ""
    match launch with
    | none => (some ("failed to start proxy for " ++ p.Name ++ ": launch error"), p)
    | some pid => (none, { p with process := some pid, nodeActive := node })

/-- Stop (proxy.go lines 201-217): with no live process, return nil
immediately. Otherwise kill the process (killOk is the oracle for
whether Process.Kill succeeded); on kill failure return the error with
the Proxy unchanged (in particular the handle is NOT cleared); on
success clear the handle and set healthy to false. -/
def Proxy.Stop (killOk : Bool) (p : Proxy) : Option String × Proxy :=
  match p.process with
  | none => (none, p)
  | some _ =>
    if killOk then
      (none, { p with process := none, healthy := false })
    else
      (some ("failed to stop proxy for " ++ p.Name ++ ": kill error"), p)

/-- hasScheme (proxy.go lines 340-342 and pinger.go lines 101-103). -/
def hasScheme (url : String) : Bool :=
  url.length > 7 && (url.take 7 == "http://" || url.take 8 == "https://")

/-- The URL a probe targets (proxy.go lines 290-293): the check endpoint,
prefixed with https:// when it carries no scheme. -/
def pingUrl (checkEndpoint : String) : String :=
  if hasScheme checkEndpoint then checkEndpoint else "https://" ++ checkEndpoint

/-- Oracle for one probe of the HTTP world. reqOk: whether
http.NewRequestWithContext succeeded on the probe URL. resp: the status
code of the response, when one was received (none when no response was
received). doErr: whether client.Do returned a non-nil error; net/http
allows a response together with an error (redirect-policy failures), and
proxy.go classifies on the response alone, so the two fields are
independent here. -/
structure HttpEnv where
  reqOk : Bool := true
  resp : Option Int := none
  doErr : Bool := false
  deriving Repr, DecidableEq

/-- Ping (proxy.go lines 283-337). With no nodes, return false before
anything else (state untouched). If request construction failed, the Go
code records the error in the result but does NOT return: it goes on to
call p.pinger.Do(req) with req == nil, and net/http Client.do
dereferences req.URL on a nil request, which aborts the program with a
nil-pointer fault; this outcome is modelled as none. Otherwise the
result is classified on the response alone: success iff a response was
received with status in [200, 500); the response body, when present, is
only closed. On a classified probe, healthy is set to the success flag
and the result is stored as lastPingResult. -/
def Proxy.Ping (env : HttpEnv) (p : Proxy) : Option (Bool × Proxy) :=
  if p.nodes.length = 0 then some (false, p)
  else if env.reqOk = false then none
  else
    let result : pingResult :=
      match env.resp with
      | some code =>
        { success := decide (200 ≤ code ∧ code < 500), statusCode := code, hasErr := env.doErr }
      | none => { success := false, statusCode := 0, hasErr := env.doErr }
    some (result.success, { p with healthy := result.success, lastPingResult := some result })

/-- One iteration of the PingConstantly probe-loop body
(proxy.go lines 174-196): when nodes exist, probe; on probe failure run
the failover sequence Stop, selectNode, Start, with all three errors
logged and otherwise ignored. With no nodes the iteration does nothing.
A probe that aborts the program (see Proxy.Ping) yields none. -/
def Proxy.pingLoopIter (env : HttpEnv) (killOk : Bool) (rands : Nat → Nat)
    (r : Nat) (launch : Option Nat) (p : Proxy) : Option Proxy :=
  if p.nodes.length > 0 then
    match p.Ping env with
    | none => none
    | some (true, p1) => some p1
    | some (false, p1) =>
      let p2 := (p1.Stop killOk).2
      let p3 := (p2.selectNode rands).2
      let p4 := (p3.Start r launch).2
      some p4
  else some p

/-- The candidate node list New works with, from the getNodes outcome
(proxy.go lines 85-91): on enumeration failure the error is logged and
the nil slice is kept, i.e. the empty list. -/
def nodesOf (nodesRes : Except String (List String)) : List String :=
  match nodesRes with
  | .error _ => []
  | .ok ns => ns

/-- New (proxy.go lines 68-115): validate the three strings, allocate
the next port from the global startPort counter (incremented only after
validation passed), take the enumerated nodes (empty on enumeration
failure), build the Proxy, then run selectNode and Start with both
results discarded. newPinger is proxy.SOCKS5 over tcp with a Direct
forward dialer, which cannot fail for this fixed argument shape, so
pinger construction is modelled as always succeeding. Returns the
result together with the updated startPort counter. -/
def New (nodesRes : Except String (List String)) (rands : Nat → Nat) (r : Nat)
    (launch : Option Nat) (startPort : Nat)
    (name domain checkEndpoint : String) : Except String Proxy × Nat :=
  if name = "" then (.error "name must not be empty", startPort)
  else if domain = "" then (.error "domain must not be empty", startPort)
  else if checkEndpoint = "" then (.error "checkEndpoint must not be empty", startPort)
  else
    let p : Proxy :=
      { Name := name, Port := startPort, Domain := domain,
        CheckEndpoint := checkEndpoint, nodes := nodesOf nodesRes }
    let p := (p.selectNode rands).2
    let p := (p.Start r launch).2
    (.ok p, startPort + 1)

/-- The arguments of one New call, with its oracle inputs. -/
structure NewCall where
  name : String
  domain : String
  checkEndpoint : String
  nodesRes : Except String (List String)
  rands : Nat → Nat
  r : Nat
  launch : Option Nat

/-- A sequence of New calls in one process, threading the global
startPort counter (initially 1080) through the calls. -/
def runNews : List NewCall → Nat → List (Except String Proxy) × Nat
  | [], sp => ([], sp)
  | c :: cs, sp =>
    let res := New c.nodesRes c.rands c.r c.launch sp c.name c.domain c.checkEndpoint
    let rest := runNews cs res.2
    (res.1 :: rest.1, rest.2)

/-- The port a New outcome assigned, when it succeeded. -/
def portOf : Except String Proxy → Option Nat
  | .ok p => some p.Port
  | .error _ => none

/-- The ports assigned by the successful calls of a New sequence, in
call order. -/
def assignedPorts (results : List (Except String Proxy)) : List Nat :=
  results.filterMap portOf

/-- Whether a New call passes the three non-empty-string validations. -/
def validCall (c : NewCall) : Bool :=
  c.name != "" && c.domain != "" && c.checkEndpoint != ""

/-- The number of calls in a sequence that pass validation. -/
def validCount (cs : List NewCall) : Nat :=
  (cs.filter validCall).length

/-- The result struct of pkg/pinger/pinger.go (PingResult). The error
value is modelled by the flag ErrorFlag, the duration is omitted. -/
structure PingResult where
  Success : Bool := false
  ResponseCode : Int := 0
  ErrorFlag : Bool := false
  deriving Repr, DecidableEq

/-- Pinger.Ping (pinger.go lines 68-98), over the same independent
HttpEnv oracle as Proxy.Ping: return early with an error result if
request construction fails; execute the request and return early with
an error result whenever Do reported an error — even when a response
was received alongside the error, the outcome net/http produces when
the redirect policy fails (the default policy errors after 10
redirects and hands back the last response), in which case the
received response and its status are discarded by this early return.
Only with no Do error is the response classified: success iff status
in [200, 500). Go guarantees a non-nil response whenever Do returns a
nil error, so the remaining branch (no error, no response) is
unreachable in Go; were it reached, resp.Body.Close and
resp.StatusCode would dereference a nil response, modelled as none. -/
def pingerPing (env : HttpEnv) : Option PingResult :=
  if env.reqOk = false then some { Success := false, ResponseCode := 0, ErrorFlag := true }
  else if env.doErr then some { Success := false, ResponseCode := 0, ErrorFlag := true }
  else
    match env.resp with
    | none => none
    | some code =>
      some { Success := decide (200 ≤ code ∧ code < 500), ResponseCode := code, ErrorFlag := false }

/-- renderPacFile (pkg/pacserver): the header line, one dnsDomainIs line
appended per proxy in order, then the DIRECT fallback and closing
brace. -/
def renderPacFile (proxies : List Proxy) : String :=
  let body := "function FindProxyForURL(url, host) \x7b"
  let body := proxies.foldl
    (fun b p => b ++ ("\n  if (dnsDomainIs(host, \x27" ++ p.Domain
      ++ "\x27)) \x7b return \x27SOCKS5 localhost:" ++ toString p.Port ++ "\x27; \x7d")) body
  body ++ "\n  return \x27DIRECT\x27;\n\x7d\n"

/-- The spec's health state of a Proxy. Modelled from the spec: the data
model gives each Proxy a health state in one of Unknown, Healthy or
Unhealthy; the code stores only the boolean healthy flag plus the
optional lastPingResult, and the spec's initial state before any probe
is Unknown, so Unknown is the absence of any recorded probe result and
otherwise the flag decides between Healthy and Unhealthy. -/
inductive Health where
  | Unknown
  | Healthy
  | Unhealthy
  deriving Repr, DecidableEq

/-- Modelled from the spec: the derived three-valued health state of a
Proxy (see Health). -/
def healthState (p : Proxy) : Health :=
  match p.lastPingResult with
  | none => Health.Unknown
  | some _ => if p.healthy then Health.Healthy else Health.Unhealthy

/-- A Proxy in the middle of the probe loop: two distinct candidate
nodes, node n1 active, a live tunnel, currently healthy. Used to
exercise the failover sequence. -/
def pFail : Proxy :=
  { Name := "g", Port := 1080, Domain := "d", CheckEndpoint := "c",
    nodes := ["n1", "n2"], nodeActive := "n1", process := some 1, healthy := true }

/-- A probe outcome that fails the health check: a response was received
with status 500. -/
def envFail : HttpEnv := { reqOk := true, resp := some 500, doErr := false }

/-- C1: the claim says the failover sequence in the probe loop ends with
the active node chosen by the avoid-repeat selection policy, hence never
the immediately previous active node when two distinct candidates exist.
On pFail (active node n1, candidates n1 and n2) the failing probe
triggers failover; selectNode does choose n2 (the avoid-repeat choice),
but Start then overwrites the active node with a fresh uniformly random
pick — here the draw rand.IntN(2) = 1 lands on n1 — so the sequence
completes with n1, the immediately previous active node, active again. -/
theorem claim_C1_start_overrides_selection :
    pFail.nodes = ["n1", "n2"] ∧ pFail.nodeActive = "n1" ∧ ("n1" : String) ≠ "n2" ∧
    ((((pFail.Ping envFail).getD (false, pFail)).2.Stop true).2.selectNode (fun _ => 0)).1 = "n2" ∧
    (pFail.pingLoopIter envFail true (fun _ => 0) 1 (some 2)).map Proxy.nodeActive = some "n1" :=
  ⟨rfl, rfl, by decide, rfl, rfl⟩

/-- C2 counterexample: the claim says a probe is classified successful
iff a response was received with status in the interval from 200
inclusive to 500 exclusive. At the probe outcome in which Do reports an
error while also delivering a response — what net/http produces when
the default redirect policy gives up after 10 redirects and hands back
the final 301 response — a response was received and its status 301
lies in that interval, yet the Pinger.Ping of pkg/pinger (one of the
two classifiers the claim covers) returns early on the error and
classifies the probe unsuccessful, discarding the received status. -/
theorem claim_C2_counterexample :
    pingerPing { reqOk := true, resp := some 301, doErr := true }
      = some { Success := false, ResponseCode := 0, ErrorFlag := true } ∧
    (200 ≤ (301 : Int) ∧ (301 : Int) < 500) :=
  ⟨rfl, by decide⟩

/-- C2 amended: a probe that Proxy.Ping of pkg/proxy actually performs
(candidate nodes present, request construction succeeded) is classified
successful iff a response was received with status code in the interval
from 200 inclusive to 500 exclusive, whether or not Do also reported an
error. The standalone Pinger.Ping of pkg/pinger classifies a probe
successful iff Do reported no error and the received status is in that
interval: on a Do error it is unsuccessful even when a final redirect
response was received alongside the error. On every outcome in which an
error means no response was received, the two rules agree. -/
theorem claim_C2_amended_classification (env : HttpEnv) (p : Proxy)
    (hn : p.nodes.length ≠ 0) (hr : env.reqOk = true) :
    (∃ res p', p.Ping env = some (res, p') ∧
      (res = true ↔ ∃ c, env.resp = some c ∧ 200 ≤ c ∧ c < 500)) ∧
    (∀ env' : HttpEnv, ∀ r, pingerPing env' = some r →
      (r.Success = true ↔ env'.reqOk = true ∧ env'.doErr = false ∧
        ∃ c, env'.resp = some c ∧ 200 ≤ c ∧ c < 500)) := by
  constructor
  · simp only [Proxy.Ping, if_neg hn, hr]
    cases hresp : env.resp with
    | none => exact ⟨_, _, rfl, by simp⟩
    | some code => exact ⟨_, _, rfl, by simp⟩
  · intro env' r h
    cases hq : env'.reqOk with
    | false =>
      simp [pingerPing, hq] at h
      subst h
      simp [hq]
    | true =>
      cases hd : env'.doErr with
      | true =>
        simp [pingerPing, hq, hd] at h
        subst h
        simp [hd]
      | false =>
        cases hresp : env'.resp with
        | none => simp [pingerPing, hq, hd, hresp] at h
        | some code =>
          simp [pingerPing, hq, hd, hresp] at h
          subst h
          simp [hq, hd, hresp]

/-- C2 witness: a performed probe of Proxy.Ping with a received 204
response is classified successful, and the pinger-side rule holds. -/
theorem claim_C2_witness :
    (∃ res p', Proxy.Ping { reqOk := true, resp := some 204, doErr := false } pFail
        = some (res, p') ∧
      (res = true ↔ ∃ c, (some (204 : Int)) = some c ∧ 200 ≤ c ∧ c < 500)) ∧
    (∀ env' : HttpEnv, ∀ r, pingerPing env' = some r →
      (r.Success = true ↔ env'.reqOk = true ∧ env'.doErr = false ∧
        ∃ c, env'.resp = some c ∧ 200 ≤ c ∧ c < 500)) :=
  claim_C2_amended_classification { reqOk := true, resp := some 204, doErr := false } pFail
    (by decide) rfl

/-- A Proxy with a live tunnel handle (pid 7), used to exercise Stop. -/
def pLive : Proxy :=
  { Name := "g", Port := 1080, Domain := "d", CheckEndpoint := "c",
    nodes := ["n1"], nodeActive := "n1", process := some 7 }

/-- C3 counterexample: the claim says that when the kill call inside
Stop errors, the tunnel handle is nevertheless cleared before Stop
returns. On pLive with a failing kill, Stop returns an error and the
handle still holds pid 7: the code returns before the line that clears
the handle. -/
theorem claim_C3_counterexample :
    (pLive.Stop false).1 ≠ none ∧ ((pLive.Stop false).2).process = some 7 :=
  ⟨by decide, rfl⟩

/-- C3 amended: if the kill call inside Stop fails, Stop returns an
error and leaves the Proxy — in particular the tunnel handle — entirely
unchanged; the handle is cleared only when the kill succeeds. -/
theorem claim_C3_amended_stop_error_keeps_handle (p : Proxy) (pid : Nat)
    (h : p.process = some pid) :
    (p.Stop false).1 ≠ none ∧ (p.Stop false).2 = p ∧ ((p.Stop true).2).process = none := by
  simp [Proxy.Stop, h]

/-- C3 witness: the amended statement at the concrete Proxy pLive. -/
theorem claim_C3_witness :
    (pLive.Stop false).1 ≠ none ∧ (pLive.Stop false).2 = pLive ∧
    ((pLive.Stop true).2).process = none :=
  claim_C3_amended_stop_error_keeps_handle pLive 7 rfl

/-- A started Proxy that has recorded a successful probe result. -/
def pRun : Proxy :=
  { Name := "g", Port := 1080, Domain := "d", CheckEndpoint := "c",
    nodes := ["n1"], nodeActive := "n1", process := some 7, healthy := true,
    lastPingResult := some { success := true, statusCode := 200, hasErr := false } }

/-- C4 counterexample: the claim says that after Stop the health state
is Unknown. On pRun (live tunnel, healthy, a recorded probe result) Stop
succeeds with no error, but the last probe result is retained, so the
resulting health state is Unhealthy, not Unknown. -/
theorem claim_C4_counterexample :
    (pRun.Stop true).1 = none ∧ healthState ((pRun.Stop true).2) = Health.Unhealthy ∧
    Health.Unhealthy ≠ Health.Unknown :=
  ⟨rfl, rfl, by decide⟩

/-- C4 amended: Stop is idempotent — on a never-started Proxy it is a
no-op returning no error, a second Stop after a successful one is a
no-op returning no error, and a Stop with a succeeding kill never
errors. A successful Stop of a live tunnel clears the healthy flag but
retains the last probe result, so the health state after Stop is
Unhealthy (or whatever the flagless state yields) whenever a probe
result was ever recorded; it is Unknown only when no probe ever ran. -/
theorem claim_C4_amended_stop_idempotent (p : Proxy) (k k' : Bool) :
    (p.process = none → p.Stop k = (none, p)) ∧
    ((p.Stop true).2).Stop k' = (none, (p.Stop true).2) ∧
    (p.Stop true).1 = none ∧
    (p.process ≠ none → ((p.Stop true).2).healthy = false ∧
      ((p.Stop true).2).lastPingResult = p.lastPingResult) ∧
    (p.lastPingResult ≠ none → healthState ((p.Stop true).2) ≠ Health.Unknown) := by
  cases hp : p.process with
  | none =>
    refine ⟨fun _ => by simp [Proxy.Stop, hp], by simp [Proxy.Stop, hp], by simp [Proxy.Stop, hp],
      fun h => absurd rfl h, fun h => ?_⟩
    simp only [Proxy.Stop, hp]
    cases hl : p.lastPingResult with
    | none => exact absurd hl h
    | some res => cases hh : p.healthy <;> simp [healthState, hl, hh]
  | some pid =>
    refine ⟨fun h => by simp [hp] at h, by simp [Proxy.Stop, hp], by simp [Proxy.Stop, hp],
      fun _ => by simp [Proxy.Stop, hp], fun h => ?_⟩
    cases hl : p.lastPingResult with
    | none => exact absurd hl h
    | some res => simp [Proxy.Stop, hp, healthState, hl]

/-- C4 witness: the amended statement applied at the concrete Proxy
pRun, with the probe-result hypothesis discharged there. -/
theorem claim_C4_witness :
    ((pRun.Stop true).2).Stop false = (none, (pRun.Stop true).2) ∧
    healthState ((pRun.Stop true).2) ≠ Health.Unknown :=
  ⟨(claim_C4_amended_stop_idempotent pRun true false).2.1,
   (claim_C4_amended_stop_idempotent pRun true false).2.2.2.2 (by decide)⟩

/-- A Proxy whose check endpoint fails URL parsing (an invalid percent
escape), so http.NewRequestWithContext errors on it. -/
def pReq : Proxy :=
  { Name := "x", Port := 1080, Domain := "d",
    CheckEndpoint := "https://example.com/%zz", nodes := ["n1"] }

/-- C9: the claim says Ping returns a result on every probe outcome,
including a request-construction error. The code handles the
nil-response and nil-body outcomes (second and third conjuncts: a
transport error yields a stored unsuccessful result, a received
response is classified by status after closing any body), but on a
request-construction error it does not return: it records the error and
then calls p.pinger.Do with a nil request, which net/http dereferences,
aborting the program — the first conjunct evaluates that outcome to
none. -/
theorem claim_C9_ping_aborts_on_request_error :
    Proxy.Ping { reqOk := false, resp := none, doErr := true } pReq = none ∧
    Proxy.Ping { reqOk := true, resp := none, doErr := true } pReq =
      some (false,
        { pReq with
          healthy := false,
          lastPingResult := some { success := false, statusCode := 0, hasErr := true } }) ∧
    Proxy.Ping { reqOk := true, resp := some 204, doErr := false } pReq =
      some (true,
        { pReq with
          healthy := true,
          lastPingResult := some { success := true, statusCode := 204, hasErr := false } }) :=
  ⟨rfl, by decide, by decide⟩

/-- C10: with an empty candidate list, Ping returns false immediately:
the Proxy — in particular its healthy flag and stored last ping result —
is returned exactly as it was, and the HTTP oracle is never consulted
(the equation holds for every env). -/
theorem claim_C10_ping_empty_nodes_frame (env : HttpEnv) (p : Proxy) (h : p.nodes = []) :
    p.Ping env = some (false, p) := by
  simp [Proxy.Ping, h]

/-- C10 witness: the empty-candidate Ping at a concrete Proxy and a
concrete HTTP oracle that would have produced a successful response. -/
theorem claim_C10_witness :
    Proxy.Ping { reqOk := true, resp := some 200, doErr := false }
      { Name := "g", Port := 1080, Domain := "d", CheckEndpoint := "c" } =
    some (false, { Name := "g", Port := 1080, Domain := "d", CheckEndpoint := "c" }) :=
  claim_C10_ping_empty_nodes_frame _ _ rfl

/-- C5: a Proxy built by New with valid strings but no candidate nodes
(enumeration failed or returned nothing). Construction succeeds, the
node list is empty and no tunnel handle exists; and every subsequent
operation on such a Proxy completes without aborting and returns it
unchanged: Start fails before spawning anything, Ping reports false
without probing, Stop is a no-op, selectNode selects nothing, and a
probe-loop iteration never reaches the failover sequence — so no tunnel
process is ever started. -/
theorem claim_C5_zero_nodes_inert (name domain ce : String)
    (h1 : name ≠ "") (h2 : domain ≠ "") (h3 : ce ≠ "")
    (nodesRes : Except String (List String)) (hn : nodesOf nodesRes = [])
    (rands : Nat → Nat) (r : Nat) (launch : Option Nat) (sp : Nat)
    (p : Proxy) (hp : (New nodesRes rands r launch sp name domain ce).1 = .ok p)
    (env : HttpEnv) (k : Bool) (rands' : Nat → Nat) (r' : Nat) (launch' : Option Nat) :
    p.nodes = [] ∧ p.process = none ∧
    (p.Start r' launch').1 ≠ none ∧ (p.Start r' launch').2 = p ∧
    p.Ping env = some (false, p) ∧
    p.Stop k = (none, p) ∧
    (p.selectNode rands').2 = p ∧
    p.pingLoopIter env k rands' r' launch' = some p := by
  simp only [New, if_neg h1, if_neg h2, if_neg h3, hn, Proxy.selectNode, Proxy.Start,
    List.length_nil, if_pos rfl, Except.ok.injEq] at hp
  subst hp
  refine ⟨rfl, rfl, ?_, ?_, ?_, ?_, ?_, ?_⟩
  · simp [Proxy.Start]
  · simp [Proxy.Start]
  · simp [Proxy.Ping]
  · simp [Proxy.Stop]
  · simp [Proxy.selectNode]
  · simp [Proxy.pingLoopIter]

/-- The Proxy that New produces for name a, domain d, check endpoint c
when node enumeration failed: empty node list, nothing selected, no
process, port 1080. -/
def pZero : Proxy := { Name := "a", Port := 1080, Domain := "d", CheckEndpoint := "c" }

/-- C5 witness: the zero-candidate construction at concrete inputs,
with an HTTP oracle that would make a performed probe abort — the
iteration still returns the Proxy unchanged because no probe happens. -/
theorem claim_C5_witness :
    pZero.nodes = [] ∧ pZero.process = none ∧
    (pZero.Start 0 (some 9)).1 ≠ none ∧ (pZero.Start 0 (some 9)).2 = pZero ∧
    pZero.Ping { reqOk := false, resp := none, doErr := true } = some (false, pZero) ∧
    pZero.Stop true = (none, pZero) ∧
    (pZero.selectNode (fun _ => 0)).2 = pZero ∧
    pZero.pingLoopIter { reqOk := false, resp := none, doErr := true } true
      (fun _ => 0) 0 (some 9) = some pZero :=
  claim_C5_zero_nodes_inert "a" "d" "c" (by decide) (by decide) (by decide)
    (.error "no nodes found") rfl (fun _ => 0) 0 none 1080 pZero rfl
    { reqOk := false, resp := none, doErr := true } true (fun _ => 0) 0 (some 9)

/-- C6: New fails exactly when one of name, domain or check endpoint is
the empty string; and when all three are non-empty, a node-enumeration
failure or an empty enumeration result does not make New fail — the
Proxy is constructed, with an empty candidate node list. -/
theorem claim_C6_new_validation (nodesRes : Except String (List String)) (rands : Nat → Nat)
    (r : Nat) (launch : Option Nat) (sp : Nat) (name domain ce : String) :
    ((∃ e, (New nodesRes rands r launch sp name domain ce).1 = .error e) ↔
      (name = "" ∨ domain = "" ∨ ce = "")) ∧
    (((∃ e, nodesRes = .error e) ∨ nodesRes = .ok []) →
      name ≠ "" → domain ≠ "" → ce ≠ "" →
      ∃ p, (New nodesRes rands r launch sp name domain ce).1 = .ok p ∧ p.nodes = []) := by
  constructor
  · constructor
    · rintro ⟨e, he⟩
      by_contra hne
      push_neg at hne
      obtain ⟨g1, g2, g3⟩ := hne
      simp [New, if_neg g1, if_neg g2, if_neg g3] at he
    · intro h
      unfold New
      split_ifs with a b c
      · exact ⟨_, rfl⟩
      · exact ⟨_, rfl⟩
      · exact ⟨_, rfl⟩
      · rcases h with h | h | h
        · exact absurd h a
        · exact absurd h b
        · exact absurd h c
  · intro hres g1 g2 g3
    have hn : nodesOf nodesRes = [] := by
      rcases hres with ⟨e, he⟩ | he <;> simp [nodesOf, he]
    refine ⟨{ Name := name, Port := sp, Domain := domain, CheckEndpoint := ce }, ?_, rfl⟩
    simp [New, if_neg g1, if_neg g2, if_neg g3, hn, Proxy.selectNode, Proxy.Start]

/-- C6 witness: at concrete inputs, an empty name fails New, while with
non-empty strings an enumeration failure still yields a Proxy with an
empty node list. -/
theorem claim_C6_witness :
    (∃ e, (New (Except.error "boom") (fun _ => 0) 0 none 1080 "" "d" "c").1 = .error e) ∧
    (∃ p, (New (Except.error "boom") (fun _ => 0) 0 none 1080 "a" "d" "c").1 = .ok p ∧
      p.nodes = []) :=
  ⟨(claim_C6_new_validation (Except.error "boom") (fun _ => 0) 0 none 1080 "" "d" "c").1.mpr
      (Or.inl rfl),
   (claim_C6_new_validation (Except.error "boom") (fun _ => 0) 0 none 1080 "a" "d" "c").2
      (Or.inl ⟨"boom", rfl⟩) (by decide) (by decide) (by decide)⟩

/-- selectNode never changes the assigned port. -/
lemma selectNode_Port (rands : Nat → Nat) (p : Proxy) :
    ((p.selectNode rands).2).Port = p.Port := by
  simp only [Proxy.selectNode]
  split
  · rfl
  · split <;> rfl

/-- Start never changes the assigned port. -/
lemma Start_Port (r : Nat) (launch : Option Nat) (p : Proxy) :
    ((p.Start r launch).2).Port = p.Port := by
  simp only [Proxy.Start]
  split
  · rfl
  · split <;> rfl

/-- A New call that passes validation assigns exactly the current
counter value as the port; a call that fails validation assigns none. -/
lemma portOf_New (nodesRes : Except String (List String)) (rands : Nat → Nat)
    (r : Nat) (launch : Option Nat) (sp : Nat) (name domain ce : String) :
    portOf (New nodesRes rands r launch sp name domain ce).1 =
      if name = "" ∨ domain = "" ∨ ce = "" then none else some sp := by
  by_cases a : name = ""
  · simp [New, a, portOf]
  · by_cases b : domain = ""
    · simp [New, a, b, portOf]
    · by_cases c : ce = ""
      · simp [New, a, b, c, portOf]
      · simp [New, a, b, c, portOf, Start_Port, selectNode_Port]

/-- New advances the global port counter exactly when validation
passed. -/
lemma New_snd (nodesRes : Except String (List String)) (rands : Nat → Nat)
    (r : Nat) (launch : Option Nat) (sp : Nat) (name domain ce : String) :
    (New nodesRes rands r launch sp name domain ce).2 =
      if name = "" ∨ domain = "" ∨ ce = "" then sp else sp + 1 := by
  by_cases a : name = ""
  · simp [New, a]
  · by_cases b : domain = ""
    · simp [New, a, b]
    · by_cases c : ce = ""
      · simp [New, a, b, c]
      · simp [New, a, b, c]

/-- The ports assigned by a sequence of New calls starting at counter
value sp are exactly the consecutive naturals from sp, one per call
that passes validation, in call order. -/
lemma runNews_ports (cs : List NewCall) : ∀ sp : Nat,
    assignedPorts (runNews cs sp).1 = List.range' sp (validCount cs) := by
  induction cs with
  | nil => intro sp; rfl
  | cons c cs ih =>
    intro sp
    by_cases hv : c.name = "" ∨ c.domain = "" ∨ c.checkEndpoint = ""
    · have hvc : validCall c = false := by
        simp only [validCall, Bool.and_eq_false_iff, bne_eq_false_iff_eq]
        rcases hv with h | h | h <;> simp [h]
      simp only [runNews, assignedPorts, List.filterMap_cons, portOf_New, if_pos hv,
        New_snd]
      have hcount : validCount (c :: cs) = validCount cs := by
        simp [validCount, List.filter_cons, hvc]
      rw [hcount]
      exact ih sp
    · have hvc : validCall c = true := by
        push_neg at hv
        simp [validCall, hv.1, hv.2.1, hv.2.2]
      simp only [runNews, assignedPorts, List.filterMap_cons, portOf_New, if_neg hv,
        New_snd]
      have hcount : validCount (c :: cs) = validCount cs + 1 := by
        simp [validCount, List.filter_cons, hvc]
      rw [hcount, List.range'_succ]
      exact congrArg (List.cons sp) (ih (sp + 1))

/-- C7: over any sequence of New calls in one process starting from the
initial counter 1080, the assigned ports of the successful calls are
exactly 1080, 1081, 1082, ... in call order — hence pairwise distinct,
strictly increasing, starting at 1080, and never handed out twice. -/
theorem claim_C7_port_allocation (cs : List NewCall) :
    assignedPorts (runNews cs 1080).1 = List.range' 1080 (validCount cs) ∧
    List.Pairwise (· < ·) (assignedPorts (runNews cs 1080).1) := by
  refine ⟨runNews_ports cs 1080, ?_⟩
  rw [runNews_ports cs 1080]
  exact List.pairwise_lt_range' 1080 (validCount cs)

/-- Concatenation of a list of strings in order. -/
def concatAll : List String → String
  | [] => ""
  | s :: rest => s ++ concatAll rest

/-- The PAC function header, as the spec describes it. -/
def pacHeader : String := "function FindProxyForURL(url, host) \x7b"

/-- The one dnsDomainIs clause the spec prescribes per configured
proxy, routing the proxy's domain to SOCKS5 on its local port. -/
def pacClause (p : Proxy) : String :=
  "\n  if (dnsDomainIs(host, \x27" ++ p.Domain ++ "\x27)) \x7b return \x27SOCKS5 localhost:"
    ++ toString p.Port ++ "\x27; \x7d"

/-- The PAC DIRECT fallback and closing brace. -/
def pacFooter : String := "\n  return \x27DIRECT\x27;\n\x7d\n"

/-- A left fold that appends one rendered piece per element equals the
initial string followed by the concatenation of the pieces in order. -/
lemma foldl_append_concatAll (f : Proxy → String) (l : List Proxy) :
    ∀ init : String, l.foldl (fun b p => b ++ f p) init = init ++ concatAll (l.map f) := by
  induction l with
  | nil => intro init; simp [concatAll]
  | cons p ps ih =>
    intro init
    simp only [List.foldl_cons, List.map_cons, concatAll, ih, String.append_assoc]

/-- The first installation of the spec scenario: domain-a at port 1080. -/
def pacA : Proxy := { Name := "a", Port := 1080, Domain := "domain-a", CheckEndpoint := "c" }

/-- The second installation of the spec scenario: domain-b at port 1081. -/
def pacB : Proxy := { Name := "b", Port := 1081, Domain := "domain-b", CheckEndpoint := "c" }

/-- C8: the rendered PAC file is the header, one dnsDomainIs clause per
proxy in input order, then the single DIRECT fallback; for the
two-installation scenario the output is exactly the two clauses for
domain-a on 1080 and domain-b on 1081, in that order, then DIRECT. -/
theorem claim_C8_render_pac :
    (∀ l : List Proxy, renderPacFile l = pacHeader ++ concatAll (l.map pacClause) ++ pacFooter) ∧
    renderPacFile [pacA, pacB] =
      "function FindProxyForURL(url, host) \x7b\n  if (dnsDomainIs(host, \x27domain-a\x27)) \x7b return \x27SOCKS5 localhost:1080\x27; \x7d\n  if (dnsDomainIs(host, \x27domain-b\x27)) \x7b return \x27SOCKS5 localhost:1081\x27; \x7d\n  return \x27DIRECT\x27;\n\x7d\n" := by
  constructor
  · intro l
    have h := foldl_append_concatAll pacClause l pacHeader
    calc renderPacFile l
        = l.foldl (fun b p => b ++ pacClause p) pacHeader ++ pacFooter := rfl
      _ = (pacHeader ++ concatAll (l.map pacClause)) ++ pacFooter := by rw [h]
  · rfl

end Linkmeup
